import Mathlib

/-!
# vpndeploy/portal

A shallow embedding of the two programs of the repository:

* `src/radius/server.go`: the RADIUS handler `radiusService.RadiusHandle`;
* `src/user-service.go`: the REST handlers of `UserService` over the in-memory
  `users` map.

Go values become Lean values, a method with a pointer receiver returns the
receiver's new state next to what it wrote to the response, and the outcome of
every call that leaves the process (the file system, the request body decoder,
the `radius` package) is an explicit argument.
-/

namespace Portal

/-! ## `src/radius/server.go` -/

namespace Radius

/-- Packet code `radius.AccessRequest` (a `uint8` in the package). -/
def AccessRequest : Nat := 1

/-- Packet code `radius.AccessAccept`. -/
def AccessAccept : Nat := 2

/-- Packet code `radius.AccessReject`. -/
def AccessReject : Nat := 3

/-- Packet code `radius.AccountingRequest`. -/
def AccountingRequest : Nat := 4

/-- Packet code `radius.AccountingResponse`. -/
def AccountingResponse : Nat := 5

/-- Attribute type `radius.UserName`. -/
def UserName : Nat := 1

/-- Attribute type `radius.UserPassword`. -/
def UserPassword : Nat := 2

/-- Attribute type `radius.ReplyMessage`. -/
def ReplyMessage : Nat := 18

/-- The Go struct `radius.AVP`: `Type` is a one-byte attribute type (the field is
called `typ` here, `Type` being reserved) and `Value` a byte sequence. -/
structure AVP where
  typ : Nat
  Value : List Nat
deriving DecidableEq, Repr

/-- The Go struct `radius.Packet`: code, identifier, 16-byte authenticator, the
ordered attribute list and the shared secret the packet was decoded with. -/
structure Packet where
  Secret : String
  Code : Nat
  Identifier : Nat
  Authenticator : List Nat
  AVPs : List AVP
deriving DecidableEq, Repr

/-- The Go conversion `[]byte(s)`: the UTF-8 bytes of a string. -/
def bytes (s : String) : List Nat :=
  s.toUTF8.toList.map UInt8.toNat

/-- Modelled from the spec: `Packet.AddAVP` of the `radius` package, whose code is
not among the sources. The attribute list is an ordered sequence of AVPs and
adding one appends it; nothing else of the packet changes. -/
def AddAVP (p : Packet) (avp : AVP) : Packet :=
  { p with AVPs := p.AVPs ++ [avp] }

/-- The methods of `radius.Packet` that the handler calls and whose code is not
among the sources: `Reply` builds the reply packet for a request, `GetUsername`
and `GetPassword` read the credentials off the request's attribute list (the
latter undoing the User-Password hiding). They are arbitrary functions of the
request: the handler is verified for every implementation of them. -/
structure PacketMethods where
  Reply : Packet → Packet
  GetUsername : Packet → String
  GetPassword : Packet → String

/-- The method `radiusService.RadiusHandle` (server.go, lines 14-34). The
`fmt.Printf` of the request on line 16 writes to standard output only and is
left out. The `switch` on `request.Code` becomes a chain of tests in the order
of its cases. -/
def RadiusHandle (m : PacketMethods) (request : Packet) : Packet :=
  let npac := m.Reply request
  if request.Code = AccessRequest then
    if m.GetUsername request = "demo" ∧ m.GetPassword request = "demo" then
      { npac with Code := AccessAccept }
    else
      AddAVP { npac with Code := AccessReject }
        { typ := ReplyMessage, Value := bytes "invalud username / password!" }
  else if request.Code = AccountingRequest then
    { npac with Code := AccountingResponse }
  else
    { npac with Code := AccessAccept }

/-- The first attribute of type `t` of a packet, if any. -/
def firstAVP (p : Packet) (t : Nat) : Option AVP :=
  p.AVPs.find? (fun a => a.typ = t)

/-- The string whose characters are the given byte values. -/
def stringOf (bs : List Nat) : String :=
  String.mk (bs.map Char.ofNat)

/-- A concrete instance of the package's methods on which the handler can be
run: the reply keeps the request's secret, identifier and authenticator and
starts with code 0 and no attribute; the user name is the value of the first
User-Name attribute and the password the value of the first User-Password
attribute, carried in clear in this instance (`""` when absent). -/
def clearMethods : PacketMethods where
  Reply := fun p =>
    { Secret := p.Secret, Code := 0, Identifier := p.Identifier,
      Authenticator := p.Authenticator, AVPs := [] }
  GetUsername := fun p =>
    match firstAVP p UserName with
    | some a => stringOf a.Value
    | none => ""
  GetPassword := fun p =>
    match firstAVP p UserPassword with
    | some a => stringOf a.Value
    | none => ""

/-- A request packet with the given code, user name and password (as ASCII
codes) under secret `"secret"`. -/
def mkRequest (code : Nat) (user pass : List Nat) : Packet :=
  { Secret := "secret", Code := code, Identifier := 7,
    Authenticator := List.replicate 16 0,
    AVPs := [{ typ := UserName, Value := user }, { typ := UserPassword, Value := pass }] }

/-- The ASCII codes of `demo`. -/
def demoBytes : List Nat := [100, 101, 109, 111]

end Radius

/-! ## `src/user-service.go` -/

namespace Users

/-- The Go struct `User` (user-service.go, lines 16-20). -/
structure User where
  Id : String
  Name : String
  Password : String
deriving DecidableEq, Repr

/-- The zero value of `User`: what indexing a Go map yields for a missing key. -/
def zeroUser : User := { Id := "", Name := "", Password := "" }

/-- The Go type `map[string]User`: at each key either no entry or a user. -/
abbrev UserMap := String → Option User

/-- The map literal `map[string]User{}` of `main`. -/
def emptyMap : UserMap := fun _ => none

/-- The Go expression `m[k]` in a value context: the stored user, or the zero
value when there is no entry under `k`. -/
def index (m : UserMap) (k : String) : User :=
  match m k with
  | some usr => usr
  | none => zeroUser

/-- The Go statement `m[k] = v`. -/
def assign (m : UserMap) (k : String) (v : User) : UserMap :=
  fun j => if j = k then some v else m j

/-- The Go builtin `delete(m, k)`: removes the entry under `k`, a no-op when
there is none. -/
def delete (m : UserMap) (k : String) : UserMap :=
  fun j => if j = k then none else m j

/-- The Go builtin `len` on a string: its length in bytes. -/
def len (s : String) : Nat := s.utf8ByteSize

/-- The Go struct `UserService` (lines 22-26). -/
structure UserService where
  path : String
  users : UserMap

/-- What a handler needs of a `restful.Request`: the path parameters by name
and the outcome of decoding the body through a `**User` (`ReadEntity(&usr)` with
`usr := new(User)`): an error, or the pointer the decoder leaves in `usr`, which
is `nil` (`none`) for a JSON body `null` and points to the decoded user
otherwise. -/
structure Request where
  pathParameters : String → Option String
  entity : Except String (Option User)

/-- The method `Request.PathParameter`: a lookup in the request's map of path
parameters, the empty string for a name that is not bound. -/
def PathParameter (request : Request) (name : String) : String :=
  match request.pathParameters name with
  | some v => v
  | none => ""

/-- The method `Request.ReadEntity` applied to `&usr`: the error, or the value of
`usr` afterwards. -/
def ReadEntity (request : Request) : Except String (Option User) :=
  request.entity

/-- What a handler wrote to its `restful.Response`: nothing, nothing because the
handler panicked (`panicked`), an error string with a status (`WriteErrorString`), an error value with a status
(`WriteError`), or a user entity with a status (`WriteEntity` writes it with
200, `WriteHeaderAndEntity` with the status given). -/
inductive Response where
  | nothing
  | panicked
  | errorString (status : Nat) (message : String)
  | error (status : Nat) (err : String)
  | entity (status : Nat) (usr : User)
deriving DecidableEq, Repr

/-- The constant `http.StatusOK`. -/
def StatusOK : Nat := 200

/-- The constant `http.StatusCreated`. -/
def StatusCreated : Nat := 201

/-- The constant `http.StatusNotFound`. -/
def StatusNotFound : Nat := 404

/-- The constant `http.StatusInternalServerError`. -/
def StatusInternalServerError : Nat := 500

/-- The calls of `Save` that leave the process: `json.Marshal` of the map
(bytes or an error) and `ioutil.WriteFile` at a path (`none` is the `nil`
error). -/
structure World where
  Marshal : UserMap → Except String String
  WriteFile : String → String → Option String

/-- The method `UserService.Save` (lines 155-165): the error it returns, `none`
for `nil`. -/
def Save (w : World) (u : UserService) : Option String :=
  match w.Marshal u.users with
  | .error err => some err
  | .ok b => w.WriteFile u.path b

/-- The method `UserService.findUser` (lines 84-92). -/
def findUser (u : UserService) (request : Request) : Response :=
  let id := PathParameter request "user-id"
  let usr := index u.users id
  if len usr.Id = 0 then
    .errorString StatusNotFound "User could not be found."
  else
    .entity StatusOK usr

/-- The method `UserService.updateUser` (lines 97-111): the service after the
call and the response written. Dereferencing a `nil` `usr` on line 101 panics
before the map is touched. -/
def updateUser (w : World) (u : UserService) (request : Request) :
    UserService × Response :=
  match ReadEntity request with
  | .ok (some usr) =>
    let u1 : UserService := { u with users := assign u.users usr.Id usr }
    match Save w u1 with
    | some err => (u1, .error StatusInternalServerError err)
    | none => (u1, .entity StatusOK usr)
  | .ok none => (u, .panicked)
  | .error err => (u, .error StatusInternalServerError err)

/-- The method `UserService.removeUser` (lines 134-141). -/
def removeUser (w : World) (u : UserService) (request : Request) :
    UserService × Response :=
  let id := PathParameter request "user-id"
  let u1 : UserService := { u with users := delete u.users id }
  match Save w u1 with
  | some err => (u1, .error StatusInternalServerError err)
  | none => (u1, .nothing)

/-- A world in which marshalling and writing the file succeed. -/
def goodWorld : World where
  Marshal := fun _ => .ok "\x7b\x7d"
  WriteFile := fun _ _ => none

/-- A world in which writing the file fails. -/
def badWorld : World where
  Marshal := fun _ => .ok "\x7b\x7d"
  WriteFile := fun _ _ => some "open ./data.json: permission denied"

/-- A request with path parameter `user-id` bound to `id` and a body that
decodes to the user `body`. -/
def mkRequest (id : String) (body : User) : Request :=
  { pathParameters := fun n => if n = "user-id" then some id else none,
    entity := .ok (some body) }

/-- A user whose `Id` field is empty. -/
def ann : User := { Id := "", Name := "Ann", Password := "pw" }

/-- A user whose `Id` field is `"2"`. -/
def bob : User := { Id := "2", Name := "Bob", Password := "pw" }

/-- A service over `./data.json` holding the given map. -/
def mkService (m : UserMap) : UserService :=
  { path := "./data.json", users := m }

end Users

/-! ## Theorems: the RADIUS handler -/

namespace Radius

/-- The code of the reply in each of the four branches of `RadiusHandle`. -/
theorem RadiusHandle_Code (m : PacketMethods) (request : Packet) :
    (RadiusHandle m request).Code =
      if request.Code = AccessRequest then
        if m.GetUsername request = "demo" ∧ m.GetPassword request = "demo" then AccessAccept
        else AccessReject
      else if request.Code = AccountingRequest then AccountingResponse
      else AccessAccept := by
  unfold RadiusHandle
  split_ifs <;> rfl

/-- C1: for a request whose Code is AccessRequest, the reply of `RadiusHandle` has
Code AccessAccept if and only if `GetUsername()` is `"demo"` and `GetPassword()`
is `"demo"`; so the request with that pair is accepted. -/
theorem RadiusHandle_accept_iff_demo (m : PacketMethods) (request : Packet)
    (h : request.Code = AccessRequest) :
    ((RadiusHandle m request).Code = AccessAccept ↔
      (m.GetUsername request = "demo" ∧ m.GetPassword request = "demo")) ∧
    (m.GetUsername request = "demo" → m.GetPassword request = "demo" →
      (RadiusHandle m request).Code = AccessAccept) := by
  rw [RadiusHandle_Code, if_pos h]
  refine ⟨?_, fun hu hp => by rw [if_pos ⟨hu, hp⟩]⟩
  by_cases hc : m.GetUsername request = "demo" ∧ m.GetPassword request = "demo"
  · simp [hc]
  · simp only [if_neg hc, hc, iff_false]
    decide

/-- The Access-Request carrying user name `demo` and password `demo` is answered
with AccessAccept, and the same request with password `dem` is not. -/
theorem RadiusHandle_accept_iff_demo_witness :
    (mkRequest AccessRequest demoBytes demoBytes).Code = AccessRequest ∧
    (RadiusHandle clearMethods (mkRequest AccessRequest demoBytes demoBytes)).Code
      = AccessAccept ∧
    (RadiusHandle clearMethods (mkRequest AccessRequest demoBytes [100, 101, 109])).Code
      ≠ AccessAccept :=
  ⟨by decide,
   (RadiusHandle_accept_iff_demo clearMethods
      (mkRequest AccessRequest demoBytes demoBytes) (by decide)).2 (by decide) (by decide),
   fun hc => absurd
     ((RadiusHandle_accept_iff_demo clearMethods
        (mkRequest AccessRequest demoBytes [100, 101, 109]) (by decide)).1.mp hc).2
     (by decide)⟩

/-- C2: for an Access-Request whose password `GetPassword()` is not `"demo"`,
whatever the user name, the reply of `RadiusHandle` has Code AccessReject and
its attribute list contains an AVP of type ReplyMessage. -/
theorem RadiusHandle_reject_other_password (m : PacketMethods) (request : Packet)
    (h : request.Code = AccessRequest) (hp : m.GetPassword request ≠ "demo") :
    (RadiusHandle m request).Code = AccessReject ∧
    ∃ a ∈ (RadiusHandle m request).AVPs, a.typ = ReplyMessage := by
  have hc : ¬ (m.GetUsername request = "demo" ∧ m.GetPassword request = "demo") :=
    fun hc => hp hc.2
  refine ⟨?_, ?_⟩
  · rw [RadiusHandle_Code, if_pos h, if_neg hc]
  · unfold RadiusHandle
    rw [if_pos h, if_neg hc]
    exact ⟨_, List.mem_append_right _ (List.mem_singleton_self _), rfl⟩

/-- The Access-Request with user name `demo` and password `dem` is rejected with
a Reply-Message attribute. -/
theorem RadiusHandle_reject_other_password_witness :
    (mkRequest AccessRequest demoBytes [100, 101, 109]).Code = AccessRequest ∧
    clearMethods.GetPassword (mkRequest AccessRequest demoBytes [100, 101, 109]) ≠ "demo" ∧
    (RadiusHandle clearMethods (mkRequest AccessRequest demoBytes [100, 101, 109])).Code
      = AccessReject ∧
    ∃ a ∈ (RadiusHandle clearMethods (mkRequest AccessRequest demoBytes [100, 101, 109])).AVPs,
      a.typ = ReplyMessage :=
  ⟨by decide, by decide,
   RadiusHandle_reject_other_password clearMethods
     (mkRequest AccessRequest demoBytes [100, 101, 109]) (by decide) (by decide)⟩

/-- C3: for every request the reply of `RadiusHandle` has Code AccessAccept (2),
AccessReject (3) or AccountingResponse (5); it is AccessAccept or AccessReject
for an Access-Request and AccountingResponse for an Accounting-Request. -/
theorem RadiusHandle_reply_code (m : PacketMethods) (request : Packet) :
    ((RadiusHandle m request).Code = 2 ∨ (RadiusHandle m request).Code = 3 ∨
      (RadiusHandle m request).Code = 5) ∧
    (request.Code = AccessRequest →
      (RadiusHandle m request).Code = AccessAccept ∨
      (RadiusHandle m request).Code = AccessReject) ∧
    (request.Code = AccountingRequest →
      (RadiusHandle m request).Code = AccountingResponse) := by
  rw [RadiusHandle_Code]
  refine ⟨?_, ?_, ?_⟩
  · split_ifs <;> simp [AccessAccept, AccessReject, AccountingResponse]
  · intro h
    rw [if_pos h]
    split_ifs <;> simp
  · intro h
    have h1 : ¬ request.Code = AccessRequest := by
      rw [h]; decide
    rw [if_neg h1, if_pos h]

end Radius

/-! ## Theorems: the user service -/

namespace Users

/-- Only the empty list of characters has byte size zero. -/
theorem utf8ByteSize_go_eq_zero (cs : List Char) :
    String.utf8ByteSize.go cs = 0 ↔ cs = [] := by
  cases cs with
  | nil => simp [String.utf8ByteSize.go]
  | cons c cs =>
    have hc := Char.utf8Size_pos c
    simp only [String.utf8ByteSize.go, reduceCtorEq, iff_false]
    omega

/-- Only the empty string has `len` zero. -/
theorem len_eq_zero (s : String) : len s = 0 ↔ s = "" := by
  cases s with
  | mk cs =>
    show String.utf8ByteSize.go cs = 0 ↔ _
    rw [utf8ByteSize_go_eq_zero]
    constructor
    · rintro rfl
      rfl
    · intro h
      exact congrArg String.data h

/-- Indexing a key without entry yields a user whose `Id` is empty. -/
theorem index_of_none (m : UserMap) (k : String) (h : m k = none) :
    index m k = zeroUser := by
  unfold index
  rw [h]

/-- Indexing a key with an entry yields the stored user. -/
theorem index_of_some (m : UserMap) (k : String) (usr : User) (h : m k = some usr) :
    index m k = usr := by
  unfold index
  rw [h]

/-- The map of the service after `removeUser`, whatever `Save` returns. -/
theorem removeUser_users (w : World) (u : UserService) (request : Request) :
    (removeUser w u request).1.users = delete u.users (PathParameter request "user-id") := by
  unfold removeUser
  dsimp only
  cases Save w { u with users := delete u.users (PathParameter request "user-id") } <;> rfl

/-- C4, as the claim states it, fails: in the map that stores under key `"7"` a
user whose `Id` field is empty, a user is stored under `"7"`, and `findUser`
for user-id `"7"` answers 404 instead of writing that user. -/
theorem findUser_not_found_for_stored_user :
    (mkService (assign emptyMap "7" ann)).users "7" = some ann ∧
    findUser (mkService (assign emptyMap "7" ann)) (mkRequest "7" ann)
      = .errorString StatusNotFound "User could not be found." ∧
    findUser (mkService (assign emptyMap "7" ann)) (mkRequest "7" ann)
      ≠ .entity StatusOK ann := by
  decide

/-- C4, amended: `findUser` answers 404 Not Found ("User could not be found.")
exactly when no user is stored under user-id or the user stored there has an
empty `Id`, and otherwise writes exactly the user stored under user-id. -/
theorem findUser_not_found_or_stored (u : UserService) (request : Request) :
    (findUser u request = .errorString StatusNotFound "User could not be found." ↔
      (u.users (PathParameter request "user-id") = none ∨
       ∃ usr, u.users (PathParameter request "user-id") = some usr ∧ usr.Id = "")) ∧
    (∀ usr, u.users (PathParameter request "user-id") = some usr → usr.Id ≠ "" →
      findUser u request = .entity StatusOK usr) := by
  unfold findUser
  dsimp only
  cases hm : u.users (PathParameter request "user-id") with
  | none =>
    simp [index_of_none _ _ hm, zeroUser, len_eq_zero]
  | some usr =>
    rw [index_of_some _ _ _ hm]
    by_cases hid : usr.Id = ""
    · simp [len_eq_zero, hid]
    · simp [len_eq_zero, hid]

/-- On the empty map `findUser` answers 404 for user-id `"2"`; once `bob`, whose
`Id` is `"2"`, is stored under `"2"`, it writes `bob`. -/
theorem findUser_not_found_or_stored_witness :
    findUser (mkService emptyMap) (mkRequest "2" bob)
      = .errorString StatusNotFound "User could not be found." ∧
    findUser (mkService (assign emptyMap "2" bob)) (mkRequest "2" bob)
      = .entity StatusOK bob :=
  ⟨(findUser_not_found_or_stored (mkService emptyMap) (mkRequest "2" bob)).1.mpr
     (Or.inl (by decide)),
   (findUser_not_found_or_stored (mkService (assign emptyMap "2" bob))
     (mkRequest "2" bob)).2 bob (by decide) (by decide)⟩

/-- After a successful `updateUser` the map holds the submitted user under the
key `usr.Id` of the body, and every other key is as before; the path parameter
is not read. -/
theorem updateUser_users (w : World) (u : UserService) (request : Request) (usr : User)
    (hr : ReadEntity request = .ok (some usr)) :
    (updateUser w u request).1.users = assign u.users usr.Id usr := by
  unfold updateUser
  rw [hr]
  dsimp only
  cases Save w { u with users := assign u.users usr.Id usr } <;> rfl

/-- C5: the code at the failing input. On the empty map, PUT with user-id `"1"`
and a body decoding to `bob` (whose `Id` is `"2"`), with `Save` succeeding:
`updateUser` writes `bob` with status 200, and afterwards the map has no entry
under `"1"` and holds `bob` under `"2"`. -/
theorem updateUser_ignores_path_parameter :
    PathParameter (mkRequest "1" bob) "user-id" = "1" ∧
    ReadEntity (mkRequest "1" bob) = .ok (some bob) ∧
    Save goodWorld (updateUser goodWorld (mkService emptyMap) (mkRequest "1" bob)).1 = none ∧
    (updateUser goodWorld (mkService emptyMap) (mkRequest "1" bob)).2 = .entity StatusOK bob ∧
    (updateUser goodWorld (mkService emptyMap) (mkRequest "1" bob)).1.users "1" = none ∧
    (updateUser goodWorld (mkService emptyMap) (mkRequest "1" bob)).1.users "2" = some bob :=
  ⟨by decide, rfl, by decide, by decide, by decide, by decide⟩

/-- C6: after `removeUser` the map has no entry under user-id, every entry under
any other key is unchanged, and when user-id was not present the map is
unchanged; this holds whether or not `Save` succeeds. -/
theorem removeUser_frame (w : World) (u : UserService) (request : Request) :
    (removeUser w u request).1.users (PathParameter request "user-id") = none ∧
    (∀ k, k ≠ PathParameter request "user-id" →
      (removeUser w u request).1.users k = u.users k) ∧
    (u.users (PathParameter request "user-id") = none →
      (removeUser w u request).1.users = u.users) := by
  rw [removeUser_users]
  refine ⟨?_, ?_, ?_⟩
  · simp [delete]
  · intro k hk
    simp [delete, hk]
  · intro h
    funext k
    by_cases hk : k = PathParameter request "user-id"
    · simp [delete, hk, h]
    · simp [delete, hk]

/-- Removing user-id `"2"` from the map holding `bob` under `"2"` and `ann` under
`"7"` leaves no entry under `"2"` and `ann` under `"7"`, also when `Save`
fails; removing the absent user-id `"3"` leaves the map as it was. -/
theorem removeUser_frame_witness :
    (removeUser badWorld (mkService (assign (assign emptyMap "7" ann) "2" bob))
      (mkRequest "2" bob)).1.users "2" = none ∧
    (removeUser badWorld (mkService (assign (assign emptyMap "7" ann) "2" bob))
      (mkRequest "2" bob)).1.users "7" = some ann ∧
    (removeUser goodWorld (mkService (assign emptyMap "2" bob))
      (mkRequest "3" bob)).1.users = assign emptyMap "2" bob :=
  ⟨(removeUser_frame badWorld (mkService (assign (assign emptyMap "7" ann) "2" bob))
      (mkRequest "2" bob)).1,
   ((removeUser_frame badWorld (mkService (assign (assign emptyMap "7" ann) "2" bob))
      (mkRequest "2" bob)).2.1 "7" (by decide)).trans (by decide),
   (removeUser_frame goodWorld (mkService (assign emptyMap "2" bob))
      (mkRequest "3" bob)).2.2 (by decide)⟩

end Users

end Portal
